import Mathlib

/-!
Shallow embedding of the MeshcoreTelemetrySenderHeltecV3 repository
(src/main.py and src/check_i2c_wiring.py): the Bus Probe retry loop and
its lock discipline, the Sensor Reader, the Session Controller's
dual-timer poll loop, and the startup / shutdown sequences.
Machine floats are modelled as rationals; exceptions as Except values.
-/

/-- Rounding to two decimal places, modelling Python round(x, 2)
    on the rational embedding of floats. -/
def round2 (x : ℚ) : ℚ := (round (x * 100) : ℤ) / 100

/-- A successful sensor snapshot: the dict built by read_bme280
    (src/main.py lines 105-111), field names from the dict keys. -/
structure SensorReading where
  temperature_c : ℚ
  temperature_f : ℚ
  humidity : ℚ
  pressure_hpa : ℚ
  altitude_m : ℚ
deriving DecidableEq

/-- The BME280 driver handle as seen by read_bme280: each attribute
    access may raise (Except.error) or return a raw value.  The
    temperature attribute is indexed by access number within one call,
    because read_bme280 reads bme280_sensor.temperature twice
    (src/main.py lines 106-107). -/
structure BME280Driver where
  temperature : Nat → Except Unit ℚ
  relative_humidity : Except Unit ℚ
  pressure : Except Unit ℚ
  altitude : Except Unit ℚ

/-- read_bme280 (src/main.py lines 99-115): returns none when the
    module-level handle was never initialized; otherwise builds the dict
    field by field in source order (temperature twice, humidity,
    pressure, altitude), and any raise during construction discards the
    whole reading (the except branch returns None). -/
def read_bme280 (sensor : Option BME280Driver) : Option SensorReading :=
  match sensor with
  | none => none
  | some d =>
    match d.temperature 0 with
    | .error _ => none
    | .ok t1 =>
      match d.temperature 1 with
      | .error _ => none
      | .ok t2 =>
        match d.relative_humidity with
        | .error _ => none
        | .ok h =>
          match d.pressure with
          | .error _ => none
          | .ok p =>
            match d.altitude with
            | .error _ => none
            | .ok a =>
              some { temperature_c := round2 t1
                     temperature_f := round2 (t2 * 9 / 5 + 32)
                     humidity := round2 h
                     pressure_hpa := round2 p
                     altitude_m := round2 a }

/-- Device classification of the Bus Probe (src/check_i2c_wiring.py
    lines 51-61). -/
inductive Classification where
  | sensorPrimary
  | sensorAlternate
  | displayLikely
  | unknown
deriving DecidableEq

/-- The if/elif/else classification chain of the Bus Probe printing
    loop (src/check_i2c_wiring.py lines 51-61). -/
def classifyDevice (addr : Nat) : Classification :=
  if addr = 0x76 then .sensorPrimary
  else if addr = 0x77 then .sensorAlternate
  else if addr = 0x3C ∨ addr = 0x3D then .displayLikely
  else .unknown

/-- The success test of the Bus Probe: 0x76 in devices or 0x77 in
    devices (src/check_i2c_wiring.py line 63). -/
def sensorSighted (devices : List Nat) : Bool :=
  devices.contains 0x76 || devices.contains 0x77

/-- Outcome of the Bus Probe's scan loop: found a (1-based attempt
    number, seconds slept in retries before success, ending in exit(0)),
    or exhausted (attempts executed, seconds slept, falling through to
    the troubleshooting guidance block). -/
inductive ScanOutcome where
  | found (attempt : Nat) (elapsed : Nat)
  | exhausted (attempts : Nat) (elapsed : Nat)
deriving DecidableEq

/-- One unrolling of the for-attempt loop of src/check_i2c_wiring.py
    lines 35-73: sleep retryDelay before every attempt except the first,
    scan, and exit successfully when the sighting test passes.  scans
    gives the simulated scan result of each 0-based attempt index. -/
def busProbeAux (retryDelay : Nat) (scans : Nat → List Nat) :
    Nat → Nat → Nat → ScanOutcome
  | 0, attempt, elapsed => .exhausted attempt elapsed
  | remaining + 1, attempt, elapsed =>
    if sensorSighted (scans attempt) then
      .found (attempt + 1) (if attempt = 0 then elapsed else elapsed + retryDelay)
    else
      busProbeAux retryDelay scans remaining (attempt + 1)
        (if attempt = 0 then elapsed else elapsed + retryDelay)

/-- The Bus Probe scan loop with its attempt bound; the source runs it
    with maxAttempts = 3 and retryDelay = 1 (range(3), time.sleep(1)). -/
def busProbe (maxAttempts retryDelay : Nat) (scans : Nat → List Nat) :
    ScanOutcome :=
  busProbeAux retryDelay scans maxAttempts 0 0

/-- A fixed scan-result sequence as an attempt oracle: attempts beyond
    the list see an empty bus. -/
def scansOf (l : List (List Nat)) : Nat → List Nat :=
  fun i => l.getD i []

/-- Observable bus-lock events of one scan attempt. -/
inductive BusEvent where
  | lockAcquire
  | scanCall
  | unlockCall
  | exitSuccess
  | raiseOut
deriving DecidableEq

/-- Event trace of one iteration of the Bus Probe loop body
    (src/check_i2c_wiring.py lines 40-73), as a function of the scan
    call's outcome.  The busy-wait try_lock acquires the lock; on a
    raising scan the finally block unlocks and the exception leaves the
    attempt; on a sighting the explicit unlock runs, exit(0) raises
    SystemExit, and the finally block unlocks again while unwinding;
    otherwise the finally block unlocks and the loop continues. -/
def scanAttemptTrace (outcome : Except Unit (List Nat)) : List BusEvent :=
  match outcome with
  | .error _ => [.lockAcquire, .scanCall, .unlockCall, .raiseOut]
  | .ok devices =>
    if sensorSighted devices then
      [.lockAcquire, .scanCall, .unlockCall, .unlockCall, .exitSuccess]
    else
      [.lockAcquire, .scanCall, .unlockCall]

/-- Number of lock levels held after a trace, counting lockAcquire up
    and unlockCall down (an unlock on a free lock stays at zero). -/
def locksHeldAfter (trace : List BusEvent) : Nat :=
  trace.foldl
    (fun held e =>
      match e with
      | .lockAcquire => held + 1
      | .unlockCall => held - 1
      | _ => held) 0

/-- The two timer variables of the poll loop (src/main.py lines
    321-322): last_sensor_read and last_status_log, both initialized
    to 0.  Times are integers (the claims drive the clock in 1-second
    ticks). -/
structure PollState where
  lastSensorRead : Int
  lastStatusLog : Int
deriving DecidableEq

/-- What one tick of the poll loop body did. -/
structure TickResult where
  state : PollState
  statusFired : Bool
  sensorBranchFired : Bool
  reading : Option SensorReading
deriving DecidableEq

/-- One iteration of the while-True poll loop body (src/main.py lines
    327-359) at clock value t: the status branch fires when
    t - last_status_log >= statusInterval and resets its timer to t; the
    sensor branch fires when the handle is present and
    t - last_sensor_read >= sensorInterval, produces whatever
    read_bme280 returned (possibly none), and resets last_sensor_read
    to t unconditionally (line 357 sits outside the if sensor_data
    block). -/
def pollTick (sensorPresent : Bool) (sensorInterval statusInterval : Int)
    (readResult : Option SensorReading) (t : Int) (s : PollState) :
    TickResult :=
  let statusFired := decide (statusInterval ≤ t - s.lastStatusLog)
  let lastStatus := if statusFired then t else s.lastStatusLog
  let branchFired := sensorPresent && decide (sensorInterval ≤ t - s.lastSensorRead)
  { state := { lastSensorRead := if branchFired then t else s.lastSensorRead
               lastStatusLog := lastStatus }
    statusFired := statusFired
    sensorBranchFired := branchFired
    reading := if branchFired then readResult else none }

/-- Clock values at which the sensor branch fires when the poll loop
    runs over the given tick sequence from state s; readOracle gives the
    read_bme280 result at each clock value. -/
def sensorFireTimes (sensorPresent : Bool) (sensorInterval statusInterval : Int)
    (readOracle : Int → Option SensorReading) :
    List Int → PollState → List Int
  | [], _ => []
  | t :: ts, s =>
    if (pollTick sensorPresent sensorInterval statusInterval (readOracle t) t s).sensorBranchFired then
      t :: sensorFireTimes sensorPresent sensorInterval statusInterval readOracle ts
        (pollTick sensorPresent sensorInterval statusInterval (readOracle t) t s).state
    else
      sensorFireTimes sensorPresent sensorInterval statusInterval readOracle ts
        (pollTick sensorPresent sensorInterval statusInterval (readOracle t) t s).state

/-- Clock values at which the status branch fires over a tick
    sequence. -/
def statusFireTimes (sensorPresent : Bool) (sensorInterval statusInterval : Int)
    (readOracle : Int → Option SensorReading) :
    List Int → PollState → List Int
  | [], _ => []
  | t :: ts, s =>
    if (pollTick sensorPresent sensorInterval statusInterval (readOracle t) t s).statusFired then
      t :: statusFireTimes sensorPresent sensorInterval statusInterval readOracle ts
        (pollTick sensorPresent sensorInterval statusInterval (readOracle t) t s).state
    else
      statusFireTimes sensorPresent sensorInterval statusInterval readOracle ts
        (pollTick sensorPresent sensorInterval statusInterval (readOracle t) t s).state

/-- The event kinds subscribed by main (src/main.py lines 229-242),
    mirroring the EventType members listed in events_to_monitor. -/
inductive EventKind where
  | battery
  | deviceInfo
  | telemetryResponse
  | contactMsgRecv
  | channelMsgRecv
  | connected
  | disconnected
  | newContact
  | advertisement
  | traceData
  | selfInfo
  | statusResponse
deriving DecidableEq

/-- events_to_monitor in source order (src/main.py lines 229-242). -/
def eventsToMonitor : List EventKind :=
  [.battery, .deviceInfo, .telemetryResponse, .contactMsgRecv,
   .channelMsgRecv, .connected, .disconnected, .newContact,
   .advertisement, .traceData, .selfInfo, .statusResponse]

/-- Observable steps of main's startup path. -/
inductive StartupStep where
  | subscribeStep (k : EventKind)
  | connectCall
  | startFetchCall
  | deviceQueryCall
  | batteryQueryCall
deriving DecidableEq

/-- The startup sequence of main on its connect path (src/main.py
    lines 244-312): the subscription loop over events_to_monitor runs to
    completion, then connect is awaited, then auto message fetching and
    the two startup queries. -/
def startupTrace : List StartupStep :=
  eventsToMonitor.map StartupStep.subscribeStep ++
    [.connectCall, .startFetchCall, .deviceQueryCall, .batteryQueryCall]

/-- Outcome of one awaited shutdown step: completes, raises, or hits
    its asyncio.wait_for timeout (which raises TimeoutError, an
    Exception). -/
inductive StepOutcome where
  | ok
  | raises
  | timesOut
deriving DecidableEq

/-- Whether the step leaves by exception. -/
def stepThrows : StepOutcome → Bool
  | .ok => false
  | .raises => true
  | .timesOut => true

/-- Observable steps of the graceful-shutdown sequence. -/
inductive SessionStep where
  | stopFetchCall
  | disconnectCall
deriving DecidableEq

/-- A sequential procedure over an event trace: runs from an
    accumulated trace to an exception status and the extended trace
    (exceptions do not erase already-performed calls). -/
def Proc : Type := List SessionStep → Except Unit Unit × List SessionStep

/-- An awaited call that records its step and then completes or
    throws. -/
def pcall (e : SessionStep) (o : StepOutcome) : Proc :=
  fun tr => (if stepThrows o then .error () else .ok (), tr ++ [e])

/-- Sequencing: the second statement runs only when the first did not
    throw. -/
def pseq (a b : Proc) : Proc :=
  fun tr =>
    match a tr with
    | (.ok _, tr2) => b tr2
    | (.error err, tr2) => (.error err, tr2)

/-- A try/except-Exception block whose handler only logs: the
    exception is swallowed and control continues. -/
def pcatchLog (a : Proc) : Proc :=
  fun tr =>
    match a tr with
    | (.ok _, tr2) => (.ok (), tr2)
    | (.error _, tr2) => (.ok (), tr2)

/-- The graceful-shutdown sequence of main (src/main.py lines 366-380):
    an outer try holds an inner try around the stop-auto-message-fetch
    await (its except Exception only logs), followed by the disconnect
    await; the outer except also only logs. -/
def shutdownProc (stopFetch disconnect : StepOutcome) : Proc :=
  pcatchLog
    (pseq (pcatchLog (pcall .stopFetchCall stopFetch))
          (pcall .disconnectCall disconnect))

/-- The calls the shutdown sequence performs, given each step's
    outcome. -/
def shutdownTrace (stopFetch disconnect : StepOutcome) : List SessionStep :=
  (shutdownProc stopFetch disconnect []).2

/-- The sensor branch fires exactly when the handle is present and the
    interval has elapsed since the last fire. -/
theorem pollTick_fired_iff (p : Bool) (sIv stIv : Int)
    (r : Option SensorReading) (t : Int) (s : PollState) :
    (pollTick p sIv stIv r t s).sensorBranchFired = true ↔
      p = true ∧ sIv ≤ t - s.lastSensorRead := by
  simp [pollTick]

/-- When the sensor branch fires, its timer is reset to the current
    clock value. -/
theorem pollTick_lastSensor_of_fired (p : Bool) (sIv stIv : Int)
    (r : Option SensorReading) (t : Int) (s : PollState)
    (hf : (pollTick p sIv stIv r t s).sensorBranchFired = true) :
    (pollTick p sIv stIv r t s).state.lastSensorRead = t := by
  simp only [pollTick] at hf ⊢
  rw [if_pos hf]

/-- When the sensor branch does not fire, its timer is untouched (the
    status branch never writes last_sensor_read). -/
theorem pollTick_lastSensor_of_not_fired (p : Bool) (sIv stIv : Int)
    (r : Option SensorReading) (t : Int) (s : PollState)
    (hf : ¬(pollTick p sIv stIv r t s).sensorBranchFired = true) :
    (pollTick p sIv stIv r t s).state.lastSensorRead = s.lastSensorRead := by
  simp only [pollTick] at hf ⊢
  rw [if_neg hf]

/-- The clock values at which the sensor branch fires do not depend on
    what the reads return: a failed read is scheduled like a successful
    one. -/
theorem sensorFireTimes_oracle_irrel (p : Bool) (sIv stIv : Int)
    (o1 o2 : Int → Option SensorReading) (ticks : List Int) :
    ∀ s : PollState,
      sensorFireTimes p sIv stIv o1 ticks s =
        sensorFireTimes p sIv stIv o2 ticks s := by
  induction ticks with
  | nil => intro s; rfl
  | cons t ts ih =>
    intro s
    by_cases hf : (pollTick p sIv stIv (o2 t) t s).sensorBranchFired = true
    · have hf1 : (pollTick p sIv stIv (o1 t) t s).sensorBranchFired = true := hf
      have hs : (pollTick p sIv stIv (o1 t) t s).state =
          (pollTick p sIv stIv (o2 t) t s).state := rfl
      simp only [sensorFireTimes, if_pos hf, if_pos hf1, hs]
      rw [ih]
    · have hf1 : ¬(pollTick p sIv stIv (o1 t) t s).sensorBranchFired = true := hf
      have hs : (pollTick p sIv stIv (o1 t) t s).state =
          (pollTick p sIv stIv (o2 t) t s).state := rfl
      simp only [sensorFireTimes, if_neg hf, if_neg hf1, hs]
      exact ih _

/-- If the run from state s fires at all, its first fire happens at
    least a full sensor interval after the timer value it started
    from. -/
theorem sensorFireTimes_head_lb (p : Bool) (sIv stIv : Int)
    (o : Int → Option SensorReading) (ticks : List Int) :
    ∀ (s : PollState) (h : Int) (rest : List Int),
      sensorFireTimes p sIv stIv o ticks s = h :: rest →
      s.lastSensorRead + sIv ≤ h := by
  induction ticks with
  | nil =>
    intro s h rest hEq
    simp [sensorFireTimes] at hEq
  | cons t ts ih =>
    intro s h rest hEq
    by_cases hf : (pollTick p sIv stIv (o t) t s).sensorBranchFired = true
    · simp only [sensorFireTimes, if_pos hf] at hEq
      have ht : t = h := (List.cons.injEq _ _ _ _).mp hEq |>.1
      have hc := (pollTick_fired_iff p sIv stIv (o t) t s).mp hf
      omega
    · simp only [sensorFireTimes, if_neg hf] at hEq
      have hstate := pollTick_lastSensor_of_not_fired p sIv stIv (o t) t s hf
      have := ih _ h rest hEq
      rw [hstate] at this
      exact this

/-- Consecutive sensor fires are at least one sensor interval apart,
    for every tick sequence, starting state and read oracle. -/
theorem sensorFireTimes_spaced (p : Bool) (sIv stIv : Int)
    (o : Int → Option SensorReading) (ticks : List Int) :
    ∀ s : PollState,
      List.Chain' (fun a b => a + sIv ≤ b)
        (sensorFireTimes p sIv stIv o ticks s) := by
  induction ticks with
  | nil => intro s; simp [sensorFireTimes]
  | cons t ts ih =>
    intro s
    by_cases hf : (pollTick p sIv stIv (o t) t s).sensorBranchFired = true
    · simp only [sensorFireTimes, if_pos hf]
      rw [List.chain'_cons']
      refine ⟨?_, ih _⟩
      intro y hy
      cases hL : sensorFireTimes p sIv stIv o ts
          (pollTick p sIv stIv (o t) t s).state with
      | nil => rw [hL] at hy; simp at hy
      | cons a l =>
        rw [hL] at hy
        simp only [List.head?_cons, Option.mem_def, Option.some.injEq] at hy
        have hlb := sensorFireTimes_head_lb p sIv stIv o ts _ a l hL
        have hstate := pollTick_lastSensor_of_fired p sIv stIv (o t) t s hf
        rw [hstate] at hlb
        omega
    · simp only [sensorFireTimes, if_neg hf]
      exact ih _

/-- Claim C1: in the poll loop, at most one SensorReading is produced
    per elapse of the sensor interval, and a failed read neither resets
    the sensor timer early nor causes a retry before the next interval:
    (1) whenever the sensor branch fires, last_sensor_read is set to the
    current time regardless of the read result; (2) the fire schedule is
    identical under any two read oracles, so a failing read neither
    retries nor reschedules; (3) consecutive fires are at least one
    sensor interval apart. -/
theorem claim_C1_sensor_timer_invariant :
    (∀ (p : Bool) (sIv stIv : Int) (r : Option SensorReading) (t : Int)
        (s : PollState),
        (pollTick p sIv stIv r t s).sensorBranchFired = true →
        (pollTick p sIv stIv r t s).state.lastSensorRead = t) ∧
    (∀ (p : Bool) (sIv stIv : Int) (o1 o2 : Int → Option SensorReading)
        (ticks : List Int) (s : PollState),
        sensorFireTimes p sIv stIv o1 ticks s =
          sensorFireTimes p sIv stIv o2 ticks s) ∧
    (∀ (p : Bool) (sIv stIv : Int) (o : Int → Option SensorReading)
        (ticks : List Int) (s : PollState),
        List.Chain' (fun a b => a + sIv ≤ b)
          (sensorFireTimes p sIv stIv o ticks s)) := by
  refine ⟨?_, ?_, ?_⟩
  · intro p sIv stIv r t s hf
    exact pollTick_lastSensor_of_fired p sIv stIv r t s hf
  · intro p sIv stIv o1 o2 ticks s
    exact sensorFireTimes_oracle_irrel p sIv stIv o1 o2 ticks s
  · intro p sIv stIv o ticks s
    exact sensorFireTimes_spaced p sIv stIv o ticks s

/-- Concrete instance of claim C1's first conjunct: a tick at time 10
    whose read fails (returns none) still resets the timer to 10. -/
theorem claim_C1_witness :
    (pollTick true 10 30 none 10 ⟨0, 0⟩).state.lastSensorRead = 10 :=
  claim_C1_sensor_timer_invariant.1 true 10 30 none 10 ⟨0, 0⟩ (by decide)

/-- Clock values 1, 2, ..., n: the 1-second tick sequence of claim
    C5. -/
def ticksUpTo (n : Nat) : List Int :=
  (List.range n).map (fun k => (k : Int) + 1)

/-- Claim C5: with sensor-interval 10, status-interval 30, both timers
    starting at 0 and 1-second ticks, the sensor branch fires exactly at
    10, 20, ..., 60 and the status branch exactly at 30, 60 over the
    first 60 ticks; both fire at the overlapping tick 30; and making the
    other timer's interval unreachable leaves each schedule unchanged
    (no mutual interference). -/
theorem claim_C5_dual_timer_schedule :
    sensorFireTimes true 10 30 (fun _ => none) (ticksUpTo 60) ⟨0, 0⟩ =
      [10, 20, 30, 40, 50, 60] ∧
    statusFireTimes true 10 30 (fun _ => none) (ticksUpTo 60) ⟨0, 0⟩ =
      [30, 60] ∧
    (30 : Int) ∈ sensorFireTimes true 10 30 (fun _ => none) (ticksUpTo 60) ⟨0, 0⟩ ∧
    (30 : Int) ∈ statusFireTimes true 10 30 (fun _ => none) (ticksUpTo 60) ⟨0, 0⟩ ∧
    sensorFireTimes true 10 1000000 (fun _ => none) (ticksUpTo 60) ⟨0, 0⟩ =
      [10, 20, 30, 40, 50, 60] ∧
    statusFireTimes true 1000000 30 (fun _ => none) (ticksUpTo 60) ⟨0, 0⟩ =
      [30, 60] := by
  refine ⟨by decide, by decide, by decide, by decide, by decide, by decide⟩

/-- From any retry iteration (attempt ≥ 1, so every remaining iteration
    sleeps first): if the first sighting among the remaining attempts is
    at offset k, the loop exits successfully on that attempt having
    slept k + 1 more delays. -/
theorem busProbeAux_found (d : Nat) (scans : Nat → List Nat) :
    ∀ (k remaining attempt elapsed : Nat),
      k < remaining →
      1 ≤ attempt →
      (∀ i, i < k → sensorSighted (scans (attempt + i)) = false) →
      sensorSighted (scans (attempt + k)) = true →
      busProbeAux d scans remaining attempt elapsed =
        .found (attempt + k + 1) (elapsed + (k + 1) * d) := by
  intro k
  induction k with
  | zero =>
    intro remaining attempt elapsed hk ha hfirst hsight
    cases remaining with
    | zero => omega
    | succ r =>
      have hs : sensorSighted (scans attempt) = true := by simpa using hsight
      have ha0 : attempt ≠ 0 := by omega
      rw [busProbeAux, if_pos hs, if_neg ha0]
      rw [ScanOutcome.found.injEq]
      exact ⟨by ring, by ring⟩
  | succ n ih =>
    intro remaining attempt elapsed hk ha hfirst hsight
    cases remaining with
    | zero => omega
    | succ r =>
      have h0 : ¬sensorSighted (scans attempt) = true := by
        have := hfirst 0 (by omega)
        simpa using this
      have ha0 : attempt ≠ 0 := by omega
      rw [busProbeAux, if_neg h0, if_neg ha0]
      have hfirst2 : ∀ i, i < n → sensorSighted (scans (attempt + 1 + i)) = false := by
        intro i hi
        have e : attempt + 1 + i = attempt + (i + 1) := by omega
        rw [e]
        exact hfirst (i + 1) (by omega)
      have hsight2 : sensorSighted (scans (attempt + 1 + n)) = true := by
        have e : attempt + 1 + n = attempt + (n + 1) := by omega
        rw [e]
        exact hsight
      rw [ih r (attempt + 1) (elapsed + d) (by omega) (by omega) hfirst2 hsight2]
      rw [ScanOutcome.found.injEq]
      exact ⟨by ring, by ring⟩

/-- From any retry iteration: if no remaining attempt sights the
    sensor, the loop runs all remaining attempts, sleeping once per
    iteration, and falls through exhausted. -/
theorem busProbeAux_exhaust (d : Nat) (scans : Nat → List Nat) :
    ∀ (remaining attempt elapsed : Nat),
      1 ≤ attempt →
      (∀ i, i < remaining → sensorSighted (scans (attempt + i)) = false) →
      busProbeAux d scans remaining attempt elapsed =
        .exhausted (attempt + remaining) (elapsed + remaining * d) := by
  intro remaining
  induction remaining with
  | zero =>
    intro attempt elapsed ha hf
    simp [busProbeAux]
  | succ r ih =>
    intro attempt elapsed ha hf
    have h0 : ¬sensorSighted (scans attempt) = true := by
      have := hf 0 (by omega)
      simpa using this
    have ha0 : attempt ≠ 0 := by omega
    rw [busProbeAux, if_neg h0, if_neg ha0]
    have hf2 : ∀ i, i < r → sensorSighted (scans (attempt + 1 + i)) = false := by
      intro i hi
      have e : attempt + 1 + i = attempt + (i + 1) := by omega
      rw [e]
      exact hf (i + 1) (by omega)
    rw [ih (attempt + 1) (elapsed + d) (by omega) hf2]
    rw [ScanOutcome.exhausted.injEq]
    exact ⟨by ring, by ring⟩

/-- Claim C2: the Bus Probe runs exactly maxAttempts attempts (3 in the
    source, delay 1) with one retry delay between consecutive attempts,
    exits successfully on the first scan result sighting 0x76 or 0x77
    (attempt k + 1 after k delays when k is the first sighting index),
    and otherwise exhausts all maxAttempts attempts after
    (maxAttempts - 1) delays, reporting failure (the exhausted outcome
    models falling through to the troubleshooting guidance); in
    particular [empty, empty, {0x76}] succeeds on attempt 3 and
    [empty, empty, empty] exhausts all 3 attempts. -/
theorem claim_C2_bus_probe_retry :
    (∀ (maxAttempts d : Nat) (scans : Nat → List Nat) (k : Nat),
        k < maxAttempts →
        (∀ i, i < k → sensorSighted (scans i) = false) →
        sensorSighted (scans k) = true →
        busProbe maxAttempts d scans = .found (k + 1) (k * d)) ∧
    (∀ (maxAttempts d : Nat) (scans : Nat → List Nat),
        (∀ i, i < maxAttempts → sensorSighted (scans i) = false) →
        busProbe maxAttempts d scans =
          .exhausted maxAttempts ((maxAttempts - 1) * d)) ∧
    busProbe 3 1 (scansOf [[], [], [0x76]]) = .found 3 2 ∧
    busProbe 3 1 (scansOf [[], [], []]) = .exhausted 3 2 := by
  refine ⟨?_, ?_, by decide, by decide⟩
  · intro maxAttempts d scans k hk hfirst hsight
    cases maxAttempts with
    | zero => omega
    | succ m =>
      unfold busProbe
      cases k with
      | zero =>
        have hs : sensorSighted (scans 0) = true := hsight
        rw [busProbeAux, if_pos hs, if_pos rfl]
        rw [ScanOutcome.found.injEq]
        exact ⟨rfl, by ring⟩
      | succ n =>
        have h0 : ¬sensorSighted (scans 0) = true := by
          have := hfirst 0 (by omega)
          simpa using this
        rw [busProbeAux, if_neg h0, if_pos rfl]
        have hfirst2 : ∀ i, i < n → sensorSighted (scans (1 + i)) = false := by
          intro i hi
          have e : 1 + i = i + 1 := by omega
          rw [e]
          exact hfirst (i + 1) (by omega)
        have hsight2 : sensorSighted (scans (1 + n)) = true := by
          have e : 1 + n = n + 1 := by omega
          rw [e]
          exact hsight
        rw [busProbeAux_found d scans n m 1 0 (by omega) (by omega) hfirst2 hsight2]
        rw [ScanOutcome.found.injEq]
        exact ⟨by ring, by ring⟩
  · intro maxAttempts d scans hf
    cases maxAttempts with
    | zero => simp [busProbe, busProbeAux]
    | succ m =>
      unfold busProbe
      have h0 : ¬sensorSighted (scans 0) = true := by
        have := hf 0 (by omega)
        simpa using this
      rw [busProbeAux, if_neg h0, if_pos rfl]
      have hf2 : ∀ i, i < m → sensorSighted (scans (1 + i)) = false := by
        intro i hi
        have e : 1 + i = i + 1 := by omega
        rw [e]
        exact hf (i + 1) (by omega)
      rw [busProbeAux_exhaust d scans m 1 0 (by omega) hf2]
      rw [ScanOutcome.exhausted.injEq]
      refine ⟨by ring, ?_⟩
      have e : m + 1 - 1 = m := by omega
      rw [e]
      ring

/-- Concrete instance of claim C2's first-sighting conjunct: a bus that
    answers 0x77 on the very first scan makes the probe exit on attempt
    1 with no retry delay slept. -/
theorem claim_C2_witness :
    busProbe 2 5 (scansOf [[0x77]]) = .found 1 0 :=
  claim_C2_bus_probe_retry.1 2 5 (scansOf [[0x77]]) 0 (by decide)
    (fun i hi => absurd hi (by omega)) (by decide)

/-- Claim C3: read_bme280 returns none whenever the handle was never
    initialized, and whenever any single attribute access (either
    temperature access, humidity, pressure or altitude) raises, the
    whole reading is discarded — never a partially populated one. -/
theorem claim_C3_read_all_or_nothing :
    read_bme280 none = none ∧
    ∀ d : BME280Driver,
      (d.temperature 0 = .error () ∨ d.temperature 1 = .error () ∨
       d.relative_humidity = .error () ∨ d.pressure = .error () ∨
       d.altitude = .error ()) →
      read_bme280 (some d) = none := by
  refine ⟨rfl, ?_⟩
  intro d hd
  cases ht0 : d.temperature 0 with
  | error e => simp [read_bme280, ht0]
  | ok t1 =>
    cases ht1 : d.temperature 1 with
    | error e => simp [read_bme280, ht0, ht1]
    | ok t2 =>
      cases hh : d.relative_humidity with
      | error e => simp [read_bme280, ht0, ht1, hh]
      | ok hv =>
        cases hp : d.pressure with
        | error e => simp [read_bme280, ht0, ht1, hh, hp]
        | ok pv =>
          cases hal : d.altitude with
          | error e => simp [read_bme280, ht0, ht1, hh, hp, hal]
          | ok av =>
            rcases hd with h | h | h | h | h <;> simp_all

/-- The spec's test driver for claim C3: temperature reads succeed but
    the humidity access raises. -/
def humidityFailDriver : BME280Driver :=
  { temperature := fun _ => .ok 21
    relative_humidity := .error ()
    pressure := .ok 1000
    altitude := .ok 100 }

/-- Concrete instance of claim C3: a driver that succeeds on
    temperature but raises on humidity yields a null overall result. -/
theorem claim_C3_witness :
    read_bme280 (some humidityFailDriver) = none :=
  claim_C3_read_all_or_nothing.2 humidityFailDriver
    (Or.inr (Or.inr (Or.inl rfl)))

/-- Claim C4: the Bus Probe's address classification is a total
    deterministic function mapping 0x76 to sensor primary, 0x77 to
    sensor alternate, 0x3C and 0x3D to display-likely, and every other
    address to unknown. -/
theorem claim_C4_classification :
    classifyDevice 0x76 = .sensorPrimary ∧
    classifyDevice 0x77 = .sensorAlternate ∧
    classifyDevice 0x3C = .displayLikely ∧
    classifyDevice 0x3D = .displayLikely ∧
    ∀ addr : Nat, addr ≠ 0x76 → addr ≠ 0x77 → addr ≠ 0x3C → addr ≠ 0x3D →
      classifyDevice addr = .unknown := by
  refine ⟨by decide, by decide, by decide, by decide, ?_⟩
  intro addr h1 h2 h3 h4
  simp [classifyDevice, h1, h2, h3, h4]

/-- Concrete instance of claim C4's catch-all branch: address 0x42 is
    classified unknown. -/
theorem claim_C4_witness :
    classifyDevice 0x42 = .unknown :=
  claim_C4_classification.2.2.2.2 0x42 (by decide) (by decide) (by decide)
    (by decide)

/-- Claim C10: one read_bme280 call queries the temperature attribute
    twice (access 0 feeds the Celsius field, access 1 the Fahrenheit
    field); when both accesses return the same raw value t, the reading
    has temperature_c = round2 t and temperature_f =
    round2 (t * 9 / 5 + 32) — the conversion applied to the unrounded
    raw value, which at t = 1/250 differs from converting the rounded
    temperature_c. -/
theorem claim_C10_fahrenheit_from_raw (d : BME280Driver) (t h p a : ℚ)
    (ht0 : d.temperature 0 = .ok t) (ht1 : d.temperature 1 = .ok t)
    (hh : d.relative_humidity = .ok h) (hp : d.pressure = .ok p)
    (ha : d.altitude = .ok a) :
    read_bme280 (some d) =
      some { temperature_c := round2 t
             temperature_f := round2 (t * 9 / 5 + 32)
             humidity := round2 h
             pressure_hpa := round2 p
             altitude_m := round2 a } ∧
    round2 ((1 / 250 : ℚ) * 9 / 5 + 32) ≠
      round2 (round2 (1 / 250 : ℚ) * 9 / 5 + 32) := by
  constructor
  · simp [read_bme280, ht0, ht1, hh, hp, ha]
  · have e1 : round2 (1 / 250 : ℚ) = 0 := by
      rw [round2, round_eq]
      norm_num
    have e2 : round2 ((1 / 250 : ℚ) * 9 / 5 + 32) = 3201 / 100 := by
      rw [round2, round_eq]
      norm_num
    have e3 : round2 ((0 : ℚ) * 9 / 5 + 32) = 32 := by
      rw [round2, round_eq]
      norm_num
    rw [e1, e2, e3]
    norm_num

/-- A driver whose every temperature access returns the same raw value
    1/250 and whose other reads succeed. -/
def steadyDriver : BME280Driver :=
  { temperature := fun _ => .ok (1 / 250)
    relative_humidity := .ok 50
    pressure := .ok 1000
    altitude := .ok 100 }

/-- Concrete instance of claim C10 at raw temperature 1/250. -/
theorem claim_C10_witness :
    read_bme280 (some steadyDriver) =
      some { temperature_c := round2 (1 / 250)
             temperature_f := round2 ((1 / 250 : ℚ) * 9 / 5 + 32)
             humidity := round2 50
             pressure_hpa := round2 1000
             altitude_m := round2 100 } ∧
    round2 ((1 / 250 : ℚ) * 9 / 5 + 32) ≠
      round2 (round2 (1 / 250 : ℚ) * 9 / 5 + 32) :=
  claim_C10_fahrenheit_from_raw steadyDriver (1 / 250) 50 1000 100
    rfl rfl rfl rfl rfl

/-- Claim C6: on every path through a scan attempt — normal completion,
    the success exit after sighting the sensor, or the scan call raising
    — exactly one lock is taken and at least one unlock runs, and the
    lock level held when control leaves the attempt is zero: the probe
    never proceeds or terminates while holding the bus lock. -/
theorem claim_C6_lock_released :
    ∀ outcome : Except Unit (List Nat),
      locksHeldAfter (scanAttemptTrace outcome) = 0 ∧
      (scanAttemptTrace outcome).count BusEvent.lockAcquire = 1 ∧
      1 ≤ (scanAttemptTrace outcome).count BusEvent.unlockCall := by
  intro outcome
  cases outcome with
  | error e =>
    cases e
    decide
  | ok devices =>
    by_cases h : sensorSighted devices = true
    · simp only [scanAttemptTrace, if_pos h]
      decide
    · simp only [scanAttemptTrace, if_neg h]
      decide

/-- Claim C9: on the success exit of the Bus Probe, unlock is invoked
    twice against a single lock acquisition — once explicitly before
    exit(0) and once by the finally block during unwinding — and the
    lock level is already zero after the first three events (lock, scan,
    first unlock), so the finally-block unlock operates on an
    already-released lock. -/
theorem claim_C9_double_unlock :
    ∀ devices : List Nat, sensorSighted devices = true →
      (scanAttemptTrace (.ok devices)).count BusEvent.unlockCall = 2 ∧
      (scanAttemptTrace (.ok devices)).count BusEvent.lockAcquire = 1 ∧
      locksHeldAfter ((scanAttemptTrace (.ok devices)).take 3) = 0 := by
  intro devices h
  simp only [scanAttemptTrace, if_pos h]
  decide

/-- Concrete instance of claim C9: a scan answering exactly [0x76]. -/
theorem claim_C9_witness :
    (scanAttemptTrace (.ok [0x76])).count BusEvent.unlockCall = 2 ∧
    (scanAttemptTrace (.ok [0x76])).count BusEvent.lockAcquire = 1 ∧
    locksHeldAfter ((scanAttemptTrace (.ok [0x76])).take 3) = 0 :=
  claim_C9_double_unlock [0x76] (by decide)

/-- Claim C7: whatever the stop-auto-message-fetching step does —
    complete, raise, or time out — the shutdown sequence still invokes
    disconnect, and invokes it after the stop-fetch call. -/
theorem claim_C7_disconnect_always :
    ∀ stopFetch disconnect : StepOutcome,
      shutdownTrace stopFetch disconnect =
        [.stopFetchCall, .disconnectCall] := by
  intro stopFetch disconnect
  cases stopFetch <;> cases disconnect <;> rfl

/-- Claim C8: the startup path registers a subscription for every
    monitored event kind strictly before the single connect call is
    issued: each subscribe step lies in the prefix of the startup trace
    preceding the first connect call. -/
theorem claim_C8_subscribe_before_connect :
    startupTrace.count StartupStep.connectCall = 1 ∧
    ∀ k ∈ eventsToMonitor,
      StartupStep.subscribeStep k ∈
        startupTrace.takeWhile (fun s => decide (s ≠ StartupStep.connectCall)) := by
  constructor
  · decide
  · intro k hk
    cases k <;> decide

/-- Concrete instance of claim C8: the battery subscription precedes
    the connect call. -/
theorem claim_C8_witness :
    StartupStep.subscribeStep EventKind.battery ∈
      startupTrace.takeWhile (fun s => decide (s ≠ StartupStep.connectCall)) :=
  claim_C8_subscribe_before_connect.2 EventKind.battery (by decide)
